import Mathlib

/-!
Shallow embedding of the pit-stop scatterplot data core (a TypeScript/D3
program).  JS strings are `String`, possibly-undefined values are `Option`,
JS numbers are `Option ℚ` where `none` plays the role of `NaN` (and, for
dates, of an Invalid Date), and thrown `TypeError`s are `Except.error`.
-/

/-- JS `String(x)`: `undefined` prints as the string "undefined". -/
def jsString : Option String → String
  | none => "undefined"
  | some s => s

/-- Characters trimmed by JS numeric coercion of a string. -/
def isJsSpace (c : Char) : Bool :=
  c = ' ' || c = '\t' || c = '\n' || c = '\r'

def trimChars (cs : List Char) : List Char :=
  ((cs.dropWhile isJsSpace).reverse.dropWhile isJsSpace).reverse

def allDigits (cs : List Char) : Bool := cs.all Char.isDigit

/-- Numeric value of a digit string (most significant digit first). -/
def digitsVal (cs : List Char) : ℕ :=
  cs.foldl (fun a c => a * 10 + (c.toNat - 48)) 0

def splitOnChar (c : Char) : List Char → List (List Char)
  | [] => [[]]
  | x :: xs =>
    match splitOnChar c xs with
    | [] => if x = c then [[], []] else [[x]]
    | y :: ys => if x = c then [] :: y :: ys else (x :: y) :: ys

/-- Plain decimal literal parsing for JS `Number(string)`: an optional
fraction part; anything else coerces to NaN (`none`).  This is the
numeric coercion used by the source's milliseconds filter. -/
def parseUnsigned (cs : List Char) : Option ℚ :=
  match splitOnChar '.' cs with
  | [whole] =>
    if whole ≠ [] ∧ allDigits whole then some ((digitsVal whole : ℚ)) else none
  | [whole, frac] =>
    if (whole ≠ [] ∨ frac ≠ []) ∧ allDigits whole ∧ allDigits frac then
      some ((digitsVal whole : ℚ) + (digitsVal frac : ℚ) / 10 ^ frac.length)
    else none
  | _ => none

def parseJSNumber (s : String) : Option ℚ :=
  match trimChars s.data with
  | [] => some 0
  | '-' :: rest => (parseUnsigned rest).map (fun q => -q)
  | '+' :: rest => parseUnsigned rest
  | cs => parseUnsigned cs

/-- JS `Number(x)` on a possibly-undefined CSV cell; `Number(undefined)`
is NaN. -/
def jsNumber : Option String → Option ℚ
  | none => none
  | some s => parseJSNumber s

def parseNatDigits (cs : List Char) : Option ℕ :=
  if cs ≠ [] ∧ allDigits cs then some (digitsVal cs) else none

/-- Days between 1970-01-01 and the given proleptic-Gregorian civil date. -/
def daysFromCivil (y : ℤ) (m d : ℕ) : ℤ :=
  let y2 : ℤ := if m ≤ 2 then y - 1 else y
  let era : ℤ := y2.fdiv 400
  let yoe : ℤ := y2 - era * 400
  let mp : ℤ := if 2 < m then (m : ℤ) - 3 else (m : ℤ) + 9
  let doy : ℤ := (153 * mp + 2).fdiv 5 + (d : ℤ) - 1
  let doe : ℤ := yoe * 365 + yoe.fdiv 4 - yoe.fdiv 100 + doy
  era * 146097 + doe - 719468

/-- Epoch milliseconds of an ISO `YYYY-MM-DD` string, `none` otherwise.
Models the subset of `new Date(string)` parsing the source exercises:
the CSV race dates are ISO calendar dates, which JS reads as UTC. -/
def parseISODate (s : String) : Option ℤ :=
  match splitOnChar '-' s.data with
  | [ys, ms, ds] =>
    match parseNatDigits ys, parseNatDigits ms, parseNatDigits ds with
    | some y, some m, some d =>
      if ys.length = 4 ∧ ms.length = 2 ∧ ds.length = 2 ∧
          1 ≤ m ∧ m ≤ 12 ∧ 1 ≤ d ∧ d ≤ 31 then
        some (daysFromCivil (y : ℤ) m d * 86400000)
      else none
    | _, _, _ => none
  | _ => none

/-- JS `new Date(x)` as an epoch-milliseconds timestamp; `none` is an
Invalid Date (`new Date(undefined)` or an unparseable string). -/
def jsNewDate : Option String → Option ℚ
  | none => none
  | some s => (parseISODate s).map (fun n => (n : ℚ))

/-- One row of `pit_stops.csv`; a cell absent from the CSV is `none`. -/
structure PitStop where
  raceId : Option String
  driverId : Option String
  milliseconds : Option String
  lap : Option String
deriving DecidableEq, Repr

structure Race where
  raceId : Option String
  name : Option String
  date : Option String
deriving DecidableEq, Repr

structure Driver where
  driverId : Option String
  forename : Option String
  surname : Option String
deriving DecidableEq, Repr

structure Constructor where
  constructorId : Option String
  name : Option String
deriving DecidableEq, Repr

structure ResultRow where
  raceId : Option String
  driverId : Option String
  constructorId : Option String
deriving DecidableEq, Repr

/-- `d3.group(records, keyFn)` seen through `InternMap.get`: the ordered
list of records whose key equals `k`, or `none` (JS `undefined`) when no
record has that key. -/
def groupBy {α : Type} (f : α → String) (rs : List α) (k : String) : Option (List α) :=
  match rs.filter (fun r => f r == k) with
  | [] => none
  | g => some g

/-- Two-level `d3.group(records, f, g)`: a map of maps. -/
def groupBy2 {α : Type} (f g : α → String) (rs : List α) (k : String) :
    Option (String → Option (List α)) :=
  match rs.filter (fun r => f r == k) with
  | [] => none
  | grp => some (groupBy g grp)

/-- The four lookup tables, fully materialized before indexing. -/
structure Tables where
  races : List Race
  drivers : List Driver
  constructors : List Constructor
  results : List ResultRow

def racesIdx (t : Tables) : String → Option (List Race) :=
  groupBy (fun d => jsString d.raceId) t.races

def driversIdx (t : Tables) : String → Option (List Driver) :=
  groupBy (fun d => jsString d.driverId) t.drivers

def constructorsIdx (t : Tables) : String → Option (List Constructor) :=
  groupBy (fun d => jsString d.constructorId) t.constructors

def resultsIdx (t : Tables) : String → Option (String → Option (List ResultRow)) :=
  groupBy2 (fun d => jsString d.raceId) (fun d => jsString d.driverId) t.results

/-- JS `xs[0]` where `xs` may be `undefined`: indexing into `undefined`
throws, indexing an empty array yields `undefined`. -/
def jsIndex0 {α : Type} : Option (List α) → Except String (Option α)
  | none => Except.error "TypeError: Cannot read properties of undefined"
  | some l => Except.ok l.head?

/-- Line 82: `const getRace = (raceId) => races.get(raceId)[0]`. -/
def getRace (t : Tables) (raceId : String) : Except String (Option Race) :=
  jsIndex0 (racesIdx t raceId)

/-- Line 83: `const getDriver = (driverId) => drivers.get(driverId)[0]`. -/
def getDriver (t : Tables) (driverId : String) : Except String (Option Driver) :=
  jsIndex0 (driversIdx t driverId)

/-- Lines 84-85:
`constructors.get(results.get(raceId)?.get(driverId)[0].constructorId)[0]`.
The optional chain guards only `results.get(raceId)`; a missing driver
entry hits `undefined[0]` and throws, and a missing constructor (or an
undefined constructor id, resulting in `constructors.get(undefined)`)
hits the trailing `[0]` and throws. -/
def getContructor (t : Tables) (raceId driverId : String) :
    Except String (Option Constructor) := do
  let cid : Option String ←
    match resultsIdx t raceId with
    | none => Except.ok none
    | some inner =>
      match inner driverId with
      | none => Except.error "TypeError: Cannot read properties of undefined"
      | some l =>
        match l.head? with
        | none => Except.error "TypeError: Cannot read properties of undefined"
        | some row => Except.ok row.constructorId
  jsIndex0 (match cid with
    | none => none
    | some c => constructorsIdx t c)

/-- One chart datum, with the fields of the source's object literal. -/
structure Obs where
  y : Option ℚ
  x : Option ℚ
  race : Option String
  driver : String
  constructor : Option String
  lap : Option String
deriving DecidableEq, Repr

/-- JS `<` as used by the filter: comparison against NaN is false. -/
def jsLtB (x : Option ℚ) (c : ℚ) : Bool :=
  match x with
  | none => false
  | some v => decide (v < c)

/-- Line 88: `pitstops.filter(d => Number(d.milliseconds) < 120000)`. -/
def filterFacts (ps : List PitStop) : List PitStop :=
  ps.filter (fun d => jsLtB (jsNumber d.milliseconds) 120000)

/-- Lines 88-101, the body of the `.map` that builds one chart datum;
`Except` carries the `TypeError`s the JS evaluation can throw. -/
def mkObservation (t : Tables) (d : PitStop) : Except String Obs := do
  let race ← getRace t (jsString d.raceId)
  let driver ← getDriver t (jsString d.driverId)
  let constructor ← getContructor t (jsString d.raceId) (jsString d.driverId)
  let surname ←
    match driver with
    | none => Except.error "TypeError: Cannot read properties of undefined"
    | some dr => Except.ok (jsString dr.surname)
  Except.ok
    { y := jsNumber d.milliseconds,
      x := jsNewDate (race.bind Race.date),
      race := race.bind Race.name,
      driver := jsString (driver.bind Driver.forename) ++ " " ++ surname,
      constructor := constructor.bind Constructor.name,
      lap := d.lap }

/-- `const data = pitstops.filter(...).map(...)` as a fallible
computation: the first thrown `TypeError` aborts the whole build. -/
def buildData (t : Tables) (ps : List PitStop) : Except String (List Obs) :=
  (filterFacts ps).mapM (mkObservation t)

def exRace : Race :=
  { raceId := some "1", name := some "GP", date := some "2020-01-01" }

def exDriver : Driver :=
  { driverId := some "10", forename := some "A", surname := some "B" }

def exConstructor : Constructor :=
  { constructorId := some "99", name := some "Team" }

def exResult : ResultRow :=
  { raceId := some "1", driverId := some "10", constructorId := some "99" }

def exTables : Tables :=
  { races := [exRace], drivers := [exDriver],
    constructors := [exConstructor], results := [exResult] }

def exPit : PitStop :=
  { raceId := some "1", driverId := some "10",
    milliseconds := some "21345", lap := some "5" }

def exPitMissingRace : PitStop :=
  { raceId := some "2", driverId := some "10",
    milliseconds := some "21345", lap := some "5" }

/-- `d3.minIndex` over already-extracted values: `undefined`/NaN (`none`)
never becomes the minimum, and the result is `-1` when no value
qualifies (in particular over an empty array). -/
def d3minIndexAux : List (Option ℚ) → Option ℚ → ℤ → ℤ → ℤ
  | [], _, mi, _ => mi
  | none :: rest, cur, mi, i => d3minIndexAux rest cur mi (i + 1)
  | some v :: rest, none, _, i => d3minIndexAux rest (some v) i (i + 1)
  | some v :: rest, some m, mi, i =>
    if m > v then d3minIndexAux rest (some v) i (i + 1)
    else d3minIndexAux rest (some m) mi (i + 1)

def d3minIndex (l : List (Option ℚ)) : ℤ := d3minIndexAux l none (-1) 0

def d3maxIndexAux : List (Option ℚ) → Option ℚ → ℤ → ℤ → ℤ
  | [], _, mi, _ => mi
  | none :: rest, cur, mi, i => d3maxIndexAux rest cur mi (i + 1)
  | some v :: rest, none, _, i => d3maxIndexAux rest (some v) i (i + 1)
  | some v :: rest, some m, mi, i =>
    if m < v then d3maxIndexAux rest (some v) i (i + 1)
    else d3maxIndexAux rest (some m) mi (i + 1)

def d3maxIndex (l : List (Option ℚ)) : ℤ := d3maxIndexAux l none (-1) 0

/-- JS `arr[i]` for an integer index: out of bounds is `undefined`. -/
def jsArrayGet {α : Type} (l : List α) (i : ℤ) : Option α :=
  if i < 0 then none else l.get? i.toNat

/-- JS property access on a possibly-undefined object: `undefined.x`
throws a `TypeError`. -/
def jsProp {α : Type} : Option α → Except String α
  | none => Except.error "TypeError: Cannot read properties of undefined"
  | some a => Except.ok a

/-- Lines 117-124: `minX`/`maxX`/`minY`/`maxY` and the `domain` object.
The lookups `data[minIndex(...)]` are `undefined` over an empty data
array (index `-1`), so the property accesses building `domain` throw. -/
def domainOf (data : List Obs) :
    Except String ((Option ℚ × Option ℚ) × (Option ℚ × Option ℚ)) := do
  let minX ← jsProp (jsArrayGet data (d3minIndex (data.map Obs.x)))
  let maxX ← jsProp (jsArrayGet data (d3maxIndex (data.map Obs.x)))
  let minY ← jsProp (jsArrayGet data (d3minIndex (data.map Obs.y)))
  let maxY ← jsProp (jsArrayGet data (d3maxIndex (data.map Obs.y)))
  Except.ok ((minX.x, maxX.x), (minY.y, maxY.y))

/-- Two-digit zero-padded rendering (the Intl `second` field as it
appears in a combined minute-second pattern). -/
def pad2 (n : ℕ) : String :=
  String.mk [Nat.digitChar (n / 10 % 10), Nat.digitChar (n % 10)]

/-- Three-digit zero-padded rendering (`fractionalSecondDigits: 3`). -/
def pad3 (n : ℕ) : String :=
  String.mk [Nat.digitChar (n / 100 % 10), Nat.digitChar (n / 10 % 10),
    Nat.digitChar (n % 10)]

/-- `milisecondsToMinutes` from `src/utils.js`: place `value` milliseconds
after the epoch and render the minute, second and fractional-second
fields of the resulting clock time.  Models `Intl.DateTimeFormat` in a
locale using `:` and `.` separators and a timezone at a whole number of
hours from UTC (minutes and seconds then agree with UTC); the format has
no hour field, so the minute shown is the clock minute, i.e. modulo 60. -/
def milisecondsToMinutes (value : ℕ) : String :=
  toString (value / 60000 % 60) ++ ":" ++ pad2 (value % 60000 / 1000) ++
    "." ++ pad3 (value % 1000)

def natLog10Aux : ℕ → ℕ → ℕ
  | 0, _ => 0
  | fuel + 1, n => if n < 10 then 0 else natLog10Aux fuel (n / 10) + 1

/-- Floor base-10 logarithm of a positive natural number. -/
def natLog10 (n : ℕ) : ℕ := natLog10Aux n n

def invLog10Aux : ℕ → ℚ → ℕ
  | 0, _ => 0
  | fuel + 1, q => if 1 ≤ 10 * q then 1 else invLog10Aux fuel (10 * q) + 1

/-- `Math.floor(Math.log(q) / Math.LN10)` for a positive rational `q`:
for `q ≥ 1` count digits of `⌊q⌋`; for `0 < q < 1` count how often `q`
must be multiplied by 10 to reach 1. -/
def log10floor (q : ℚ) : ℤ :=
  if 1 ≤ q then (natLog10 ⌊q⌋.toNat : ℤ) else -(invLog10Aux q.den q : ℤ)

/-- `d3.tickIncrement(start, stop, count)` for the ascending, positive
`count` case the nice loop exercises.  The comparisons of `error` with
`Math.sqrt(50)`, `Math.sqrt(10)` and `Math.sqrt(2)` are carried out
exactly via squares (`error` is positive). -/
def tickIncrement (start stop : ℚ) (count : ℕ) : ℚ :=
  if start < stop ∧ 0 < count then
    let step : ℚ := (stop - start) / (count : ℚ)
    let power : ℤ := log10floor step
    let error : ℚ := step / (10 : ℚ) ^ power
    if 0 ≤ power then
      (if 50 ≤ error ^ 2 then 10 else if 10 ≤ error ^ 2 then 5
        else if 2 ≤ error ^ 2 then 2 else 1) * (10 : ℚ) ^ power
    else
      -((10 : ℚ) ^ (-power)) /
        (if 50 ≤ error ^ 2 then 10 else if 10 ≤ error ^ 2 then 5
          else if 2 ≤ error ^ 2 then 2 else 1)
  else 0

/-- The body of `scale.nice()` (d3-scale's `linearish.nice`, default
`count = 10`, `maxIter = 10`): repeatedly snap `start`/`stop` outward to
the current tick increment until the increment stabilises.  On fuel
exhaustion, or on a non-positive-non-negative increment, d3 leaves the
scale's domain unchanged, i.e. the original `(a, b)` is kept. -/
def niceLoop (a b : ℚ) (count : ℕ) : ℕ → ℚ → ℚ → Option ℚ → ℚ × ℚ
  | 0, _, _, _ => (a, b)
  | fuel + 1, start, stop, prestep =>
    if prestep = some (tickIncrement start stop count) then (start, stop)
    else if 0 < tickIncrement start stop count then
      niceLoop a b count fuel
        ((⌊start / tickIncrement start stop count⌋ : ℚ) *
          tickIncrement start stop count)
        ((⌈stop / tickIncrement start stop count⌉ : ℚ) *
          tickIncrement start stop count)
        (some (tickIncrement start stop count))
    else if tickIncrement start stop count < 0 then
      niceLoop a b count fuel
        ((⌈start * tickIncrement start stop count⌉ : ℚ) /
          tickIncrement start stop count)
        ((⌊stop * tickIncrement start stop count⌋ : ℚ) /
          tickIncrement start stop count)
        (some (tickIncrement start stop count))
    else (a, b)

/-- The domain of `scaleLinear().domain([a, b]).nice()`: d3 swaps a
descending domain before the loop and swaps it back on return. -/
def niceDomain (a b : ℚ) (count : ℕ) : ℚ × ℚ :=
  if b < a then
    ((niceLoop b a count 10 b a none).2, (niceLoop b a count 10 b a none).1)
  else niceLoop a b count 10 a b none

/-- The affine map of `scaleLinear().domain(dom).range(rng)`: d3's
`normalize` degenerates to the constant `0.5` on a degenerate domain
(so the scale returns the midpoint of the range), otherwise it
interpolates; out-of-domain inputs extrapolate, nothing clamps or
flips. -/
def linFn (dom rng : ℚ × ℚ) (x : ℚ) : ℚ :=
  if dom.1 = dom.2 then (rng.1 + rng.2) / 2
  else rng.1 + (x - dom.1) / (dom.2 - dom.1) * (rng.2 - rng.1)

/-- Lines 167-172, `yScale`: a linear scale whose domain is niced on
construction (`.domain(domain).range(range).nice()`). -/
def yScale (dom rng : ℚ × ℚ) : ℚ → ℚ :=
  linFn (niceDomain dom.1 dom.2 10) rng

/-- Line 143: `innerHeight = height - margin.top - margin.bottom`. -/
def innerHeight : ℚ := 500 - 20 - 20

/-- Lines 144-147: `range.y` as constructed. -/
def rangeY_initial : List ℚ := [0, innerHeight]

/-- Line 188: building the y axis evaluates `range.y.reverse()`, and
`Array.prototype.reverse` reverses the array in place, so from this
statement on the stored `range.y` is the reversed list. -/
def rangeY_after_axes : List ℚ := rangeY_initial.reverse

/-- Line 236: the `range.y` value observed by the dot `cy` computation
`yScale(domain.y, range.y)(d.y)`, which runs after the axes are built. -/
def rangeY_at_dots : List ℚ := rangeY_after_axes

def exPitMissingDriver : PitStop :=
  { raceId := some "1", driverId := some "77",
    milliseconds := some "21345", lap := some "5" }

/-- The example tables with the constructors table emptied. -/
def exTablesNoCon : Tables :=
  { races := [exRace], drivers := [exDriver],
    constructors := [], results := [exResult] }

def exPit120000 : PitStop :=
  { raceId := some "1", driverId := some "10",
    milliseconds := some "120000", lap := some "1" }

def exPit119999 : PitStop :=
  { raceId := some "1", driverId := some "10",
    milliseconds := some "119999", lap := some "1" }

def exPitBadMs : PitStop :=
  { raceId := some "1", driverId := some "10",
    milliseconds := some "n/a", lap := some "3" }

theorem log10floor_ten : log10floor 10 = 1 := by
  rw [log10floor, if_pos (by norm_num : (1:ℚ) ≤ 10)]
  rw [(by norm_num : ⌊(10:ℚ)⌋ = 10)]
  decide

theorem tickIncrement_0_100_10 : tickIncrement 0 100 10 = 10 := by
  rw [tickIncrement, if_pos (by norm_num : (0:ℚ) < 100 ∧ 0 < 10)]
  simp only []
  rw [(by norm_num : ((100:ℚ) - 0) / ((10:ℕ):ℚ) = 10)]
  rw [log10floor_ten]
  norm_num

theorem niceLoop_succ (a b : ℚ) (count fuel : ℕ) (start stop : ℚ)
    (pre : Option ℚ) :
    niceLoop a b count (fuel + 1) start stop pre =
      if pre = some (tickIncrement start stop count) then (start, stop)
      else if 0 < tickIncrement start stop count then
        niceLoop a b count fuel
          ((⌊start / tickIncrement start stop count⌋ : ℚ) *
            tickIncrement start stop count)
          ((⌈stop / tickIncrement start stop count⌉ : ℚ) *
            tickIncrement start stop count)
          (some (tickIncrement start stop count))
      else if tickIncrement start stop count < 0 then
        niceLoop a b count fuel
          ((⌈start * tickIncrement start stop count⌉ : ℚ) /
            tickIncrement start stop count)
          ((⌊stop * tickIncrement start stop count⌋ : ℚ) /
            tickIncrement start stop count)
          (some (tickIncrement start stop count))
      else (a, b) := rfl

theorem niceDomain_0_100 : niceDomain 0 100 10 = (0, 100) := by
  rw [niceDomain, if_neg (by norm_num : ¬ (100:ℚ) < 0)]
  show niceLoop 0 100 10 (9 + 1) 0 100 none = (0, 100)
  rw [niceLoop_succ, tickIncrement_0_100_10]
  rw [if_neg (by simp : ¬ (none : Option ℚ) = some 10)]
  rw [if_pos (by norm_num : (0:ℚ) < 10)]
  rw [(by norm_num : ((⌊(0:ℚ) / 10⌋ : ℚ) * 10) = 0)]
  rw [(by norm_num : ((⌈(100:ℚ) / 10⌉ : ℚ) * 10) = 100)]
  show niceLoop 0 100 10 (8 + 1) 0 100 (some 10) = (0, 100)
  rw [niceLoop_succ, tickIncrement_0_100_10]
  rw [if_pos rfl]

/-- Each pass of the nice loop only moves `start` down and `stop` up, so
whatever it returns still encloses the original domain. -/
theorem niceLoop_bounds (a b : ℚ) (count : ℕ) :
    ∀ (fuel : ℕ) (start stop : ℚ) (pre : Option ℚ), start ≤ a → b ≤ stop →
      (niceLoop a b count fuel start stop pre).1 ≤ a ∧
        b ≤ (niceLoop a b count fuel start stop pre).2 := by
  intro fuel
  induction fuel with
  | zero =>
    intro start stop pre h1 h2
    exact ⟨le_refl a, le_refl b⟩
  | succ n ih =>
    intro start stop pre h1 h2
    rw [niceLoop_succ]
    split_ifs with hpre hpos hneg
    · exact ⟨h1, h2⟩
    · apply ih
      · calc ((⌊start / tickIncrement start stop count⌋ : ℚ) *
              tickIncrement start stop count)
            ≤ (start / tickIncrement start stop count) *
              tickIncrement start stop count :=
            mul_le_mul_of_nonneg_right (Int.floor_le _) (le_of_lt hpos)
          _ = start := div_mul_cancel₀ start (ne_of_gt hpos)
          _ ≤ a := h1
      · calc b ≤ stop := h2
          _ = (stop / tickIncrement start stop count) *
              tickIncrement start stop count :=
            (div_mul_cancel₀ stop (ne_of_gt hpos)).symm
          _ ≤ (⌈stop / tickIncrement start stop count⌉ : ℚ) *
              tickIncrement start stop count :=
            mul_le_mul_of_nonneg_right (Int.le_ceil _) (le_of_lt hpos)
    · apply ih
      · calc ((⌈start * tickIncrement start stop count⌉ : ℚ) /
              tickIncrement start stop count)
            ≤ start := by
              rw [div_le_iff_of_neg hneg]
              exact Int.le_ceil _
          _ ≤ a := h1
      · calc b ≤ stop := h2
          _ ≤ ((⌊stop * tickIncrement start stop count⌋ : ℚ) /
              tickIncrement start stop count) := by
              rw [le_div_iff_of_neg hneg]
              exact Int.floor_le _
    · exact ⟨le_refl a, le_refl b⟩

/-- Nicing a nondegenerate domain never collapses it. -/
theorem niceDomain_ne (a b : ℚ) (count : ℕ) (h : a ≠ b) :
    (niceDomain a b count).1 ≠ (niceDomain a b count).2 := by
  rcases lt_or_gt_of_ne h with hlt | hgt
  · rw [niceDomain, if_neg (not_lt.mpr (le_of_lt hlt))]
    have hb := niceLoop_bounds a b count 10 a b none (le_refl a) (le_refl b)
    exact ne_of_lt (lt_of_le_of_lt hb.1 (lt_of_lt_of_le hlt hb.2))
  · rw [niceDomain, if_pos hgt]
    have hb := niceLoop_bounds b a count 10 b a none (le_refl b) (le_refl a)
    exact ne_of_gt (lt_of_le_of_lt hb.1 (lt_of_lt_of_le hgt hb.2))

theorem linFn_slope (dom rng : ℚ × ℚ) (x : ℚ) (h : dom.1 ≠ dom.2) :
    linFn dom rng (x + 1) - linFn dom rng x =
      (rng.2 - rng.1) / (dom.2 - dom.1) := by
  rw [linFn, linFn, if_neg h, if_neg h]
  have hd : dom.2 - dom.1 ≠ 0 := sub_ne_zero.mpr (Ne.symm h)
  field_simp
  ring

theorem linFn_left (dom rng : ℚ × ℚ) (h : dom.1 ≠ dom.2) :
    linFn dom rng dom.1 = rng.1 := by
  rw [linFn, if_neg h]
  simp

theorem linFn_right (dom rng : ℚ × ℚ) (h : dom.1 ≠ dom.2) :
    linFn dom rng dom.2 = rng.2 := by
  rw [linFn, if_neg h]
  have hd : dom.2 - dom.1 ≠ 0 := sub_ne_zero.mpr (Ne.symm h)
  field_simp

/-- Claim C1: the spec asserts that a pit-stop record whose foreign keys
are missing from the lookup tables resolves each failed hop to "absent"
and yields an Observation with absent label fields instead of raising.
The code does the opposite: `races.get(raceId)[0]` on a missing race id
indexes into `undefined` and throws a `TypeError`, as do a missing
driver, a missing race-or-driver result row (the optional chain guards
only the first of those lookups), and a missing constructor; the whole
data build aborts with the error instead of producing an Observation. -/
theorem C1_missing_relations_throw :
    buildData exTables [exPitMissingRace] =
        Except.error "TypeError: Cannot read properties of undefined" ∧
      getRace exTables "2" =
        Except.error "TypeError: Cannot read properties of undefined" ∧
      getDriver exTables "77" =
        Except.error "TypeError: Cannot read properties of undefined" ∧
      getContructor exTables "2" "10" =
        Except.error "TypeError: Cannot read properties of undefined" ∧
      getContructor exTables "1" "77" =
        Except.error "TypeError: Cannot read properties of undefined" ∧
      getContructor exTablesNoCon "1" "10" =
        Except.error "TypeError: Cannot read properties of undefined" :=
  ⟨rfl, rfl, rfl, rfl, rfl, rfl⟩

/-- Claim C2 (counterexample): the claim says a lookup of an absent key
in a built index returns the empty sequence; on the concrete index built
from the one example race, looking up the absent key "2" returns
`undefined` (`none`), not the empty sequence. -/
theorem C2_counterexample :
    racesIdx exTables "2" = none ∧
      racesIdx exTables "2" ≠ some ([] : List Race) := by
  exact ⟨rfl, by decide⟩

/-- Claim C2 (amended): a lookup of a key under which no record was
indexed returns `undefined` (`none`) — an out-of-band absence marker,
not the empty sequence; the lookup itself never fails, and every key
that is present maps to a nonempty group. -/
theorem C2_group_get_absent {α : Type} (f : α → String) (rs : List α)
    (k : String) :
    ((∀ r ∈ rs, f r ≠ k) → groupBy f rs k = none) ∧
      (∀ l, groupBy f rs k = some l → l ≠ []) := by
  constructor
  · intro h
    have hf : rs.filter (fun r => f r == k) = [] := by
      rw [List.filter_eq_nil_iff]
      intro r hr
      simpa using h r hr
    simp [groupBy, hf]
  · intro l hl
    rcases hf : rs.filter (fun r => f r == k) with _ | ⟨x, xs⟩
    · simp [groupBy, hf] at hl
    · simp [groupBy, hf] at hl
      rw [← hl]
      simp

/-- Witness for C2's amended theorem at a concrete index and key. -/
theorem C2_witness :
    groupBy (fun r => jsString r.raceId) [exRace] "2" = none :=
  (C2_group_get_absent (fun r => jsString r.raceId) [exRace] "2").1
    (by decide)

/-- Claim C3: a fact whose milliseconds value is 120000 or greater is
excluded from the observation sequence by the filter, and one whose
value is 119999 or less is included (the filter is the only condition on
membership in the filtered fact list that feeds the observation map). -/
theorem C3_filter_boundary (ps : List PitStop) (d : PitStop) (v : ℚ)
    (hd : d ∈ ps) (hv : jsNumber d.milliseconds = some v) :
    (120000 ≤ v → d ∉ filterFacts ps) ∧
      (v ≤ 119999 → d ∈ filterFacts ps) := by
  constructor
  · intro h120 hmem
    have hp := (List.mem_filter.mp hmem).2
    rw [hv] at hp
    simp [jsLtB] at hp
    linarith
  · intro h119
    refine List.mem_filter.mpr ⟨hd, ?_⟩
    rw [hv]
    simp [jsLtB]
    linarith

/-- Witness for C3 at the two boundary millisecond values. -/
theorem C3_witness :
    exPit120000 ∉ filterFacts [exPit120000] ∧
      exPit119999 ∈ filterFacts [exPit119999] :=
  ⟨(C3_filter_boundary [exPit120000] exPit120000 120000 (by simp)
      (by rfl)).1 (by norm_num),
    (C3_filter_boundary [exPit119999] exPit119999 119999 (by simp)
      (by rfl)).2 (by norm_num)⟩

/-- Claim C4: on the concrete example tables, the pit stop
`{raceId:"1", driverId:"10", milliseconds:"21345", lap:"5"}` resolves to
the observation `{y: 21345, x: Date("2020-01-01"), race: "GP",
driver: "A B", constructor: "Team", lap: "5"}`. -/
theorem C4_example_observation :
    buildData exTables [exPit] =
      Except.ok [{ y := some 21345, x := jsNewDate (some "2020-01-01"),
                   race := some "GP", driver := "A B",
                   constructor := some "Team", lap := some "5" }] := rfl

/-- Claim C5: the extent computation signals failure (a thrown
`TypeError`, distinct from any normal result) on an empty observation
sequence, and on a single observation (with well-formed x and y values)
returns that observation as both the minimum and the maximum on both
axes. -/
theorem C5_extent_empty_and_singleton (o : Obs) (hx : ∃ q, o.x = some q)
    (hy : ∃ q, o.y = some q) :
    domainOf [] =
        Except.error "TypeError: Cannot read properties of undefined" ∧
      domainOf [o] = Except.ok ((o.x, o.x), (o.y, o.y)) := by
  obtain ⟨qx, hqx⟩ := hx
  obtain ⟨qy, hqy⟩ := hy
  cases o with
  | mk y x race driver constructor lap =>
    cases hqx
    cases hqy
    exact ⟨rfl, rfl⟩

/-- Witness for C5 at a concrete single observation. -/
theorem C5_witness :
    (∃ q, ({ y := some 21345, x := some 1577836800000, race := some "GP",
             driver := "A B", constructor := some "Team",
             lap := some "5" } : Obs).x = some q) ∧
      (∃ q, ({ y := some 21345, x := some 1577836800000, race := some "GP",
               driver := "A B", constructor := some "Team",
               lap := some "5" } : Obs).y = some q) ∧
      (domainOf [] =
          Except.error "TypeError: Cannot read properties of undefined" ∧
        domainOf [{ y := some 21345, x := some 1577836800000,
                    race := some "GP", driver := "A B",
                    constructor := some "Team", lap := some "5" }] =
          Except.ok ((some 1577836800000, some 1577836800000),
            (some 21345, some 21345))) :=
  ⟨⟨1577836800000, rfl⟩, ⟨21345, rfl⟩,
    C5_extent_empty_and_singleton
      { y := some 21345, x := some 1577836800000, race := some "GP",
        driver := "A B", constructor := some "Team", lap := some "5" }
      ⟨1577836800000, rfl⟩ ⟨21345, rfl⟩⟩

/-- Claim C6: the duration formatter renders 90500 ms as "1:30.500" and
500 ms as "0:00.500", and for every sub-two-minute millisecond count it
renders a minutes label equal to `v / 60000` (at most 1, so nothing
rolls over past minutes) joined to a two-digit seconds field and exactly
three fractional-second digits. -/
theorem C6_formatDuration :
    milisecondsToMinutes 90500 = "1:30.500" ∧
      milisecondsToMinutes 500 = "0:00.500" ∧
      ∀ v : ℕ, v < 120000 →
        milisecondsToMinutes v =
            toString (v / 60000) ++ ":" ++ pad2 (v % 60000 / 1000) ++
              "." ++ pad3 (v % 1000) ∧
          v / 60000 ≤ 1 ∧ (pad3 (v % 1000)).length = 3 := by
  refine ⟨by decide, by decide, ?_⟩
  intro v hv
  have hlt : v / 60000 < 60 := by omega
  refine ⟨?_, by omega, rfl⟩
  rw [milisecondsToMinutes, Nat.mod_eq_of_lt hlt]

/-- Witness for C6's universally quantified part at 90500 ms. -/
theorem C6_witness :
    90500 < 120000 ∧
      (milisecondsToMinutes 90500 =
          toString (90500 / 60000) ++ ":" ++ pad2 (90500 % 60000 / 1000) ++
            "." ++ pad3 (90500 % 1000) ∧
        90500 / 60000 ≤ 1 ∧ (pad3 (90500 % 1000)).length = 3) :=
  ⟨by decide, C6_formatDuration.2.2 90500 (by decide)⟩

/-- Claim C7: for domain [0,100] and range [0,800] the un-niced linear
map sends 50 to 400; the nice step computes the round increment 10 and
returns domain boundaries that are integer multiples of it (here the
domain [0,100] is unchanged), and the niced scale maps the original
domain minimum and maximum to values inside [0,800]. -/
theorem C7_linear_scale_example :
    linFn (0, 100) (0, 800) 50 = 400 ∧
      tickIncrement 0 100 10 = 10 ∧
      niceDomain 0 100 10 = (0, 100) ∧
      (∃ k m : ℤ, (niceDomain 0 100 10).1 =
          (k : ℚ) * tickIncrement 0 100 10 ∧
        (niceDomain 0 100 10).2 = (m : ℚ) * tickIncrement 0 100 10) ∧
      (0 ≤ yScale (0, 100) (0, 800) 0 ∧ yScale (0, 100) (0, 800) 0 ≤ 800 ∧
        0 ≤ yScale (0, 100) (0, 800) 100 ∧
        yScale (0, 100) (0, 800) 100 ≤ 800) := by
  have hy0 : yScale (0, 100) (0, 800) 0 = 0 := by
    show linFn (niceDomain 0 100 10) (0, 800) 0 = 0
    rw [niceDomain_0_100, linFn]
    norm_num
  have hy100 : yScale (0, 100) (0, 800) 100 = 800 := by
    show linFn (niceDomain 0 100 10) (0, 800) 100 = 800
    rw [niceDomain_0_100, linFn]
    norm_num
  refine ⟨by rw [linFn]; norm_num, tickIncrement_0_100_10,
    niceDomain_0_100, ⟨0, 10, ?_, ?_⟩, ?_⟩
  · rw [niceDomain_0_100, tickIncrement_0_100_10]
    norm_num
  · rw [niceDomain_0_100, tickIncrement_0_100_10]
    norm_num
  · rw [hy0, hy100]
    norm_num

/-- Claim C8: for any nondegenerate domain [a,b] and range [s,e], the
scale built with the swapped range [e,s] is a total function over the
same niced domain, its per-unit slope is the negation of (hence has the
opposite sign of) the slope of the scale built with [s,e], that slope is
nonzero, and the swapped-range scale maps the niced domain start to `e`
and end to `s` — the scale itself performs no implicit flipping. -/
theorem C8_reversed_range_slope (a b s e x : ℚ) (hab : a ≠ b)
    (hse : s ≠ e) :
    yScale (a, b) (e, s) (x + 1) - yScale (a, b) (e, s) x =
        -(yScale (a, b) (s, e) (x + 1) - yScale (a, b) (s, e) x) ∧
      yScale (a, b) (s, e) (x + 1) - yScale (a, b) (s, e) x ≠ 0 ∧
      yScale (a, b) (e, s) (niceDomain a b 10).1 = e ∧
      yScale (a, b) (e, s) (niceDomain a b 10).2 = s := by
  have hD := niceDomain_ne a b 10 hab
  have hd : (niceDomain a b 10).2 - (niceDomain a b 10).1 ≠ 0 :=
    sub_ne_zero.mpr (Ne.symm hD)
  refine ⟨?_, ?_, ?_, ?_⟩
  · rw [yScale, yScale, linFn_slope _ _ _ hD, linFn_slope _ _ _ hD]
    show (s - e) / ((niceDomain a b 10).2 - (niceDomain a b 10).1) =
      -((e - s) / ((niceDomain a b 10).2 - (niceDomain a b 10).1))
    rw [← neg_div, neg_sub]
  · rw [yScale, linFn_slope _ _ _ hD]
    show (e - s) / ((niceDomain a b 10).2 - (niceDomain a b 10).1) ≠ 0
    exact div_ne_zero (sub_ne_zero.mpr (Ne.symm hse)) hd
  · exact linFn_left _ _ hD
  · exact linFn_right _ _ hD

/-- Witness for C8 at domain [0,100], range [0,800] and input 0. -/
theorem C8_witness :
    (0 : ℚ) ≠ 100 ∧ (0 : ℚ) ≠ 800 ∧
      (yScale (0, 100) (800, 0) (0 + 1) - yScale (0, 100) (800, 0) 0 =
          -(yScale (0, 100) (0, 800) (0 + 1) - yScale (0, 100) (0, 800) 0) ∧
        yScale (0, 100) (0, 800) (0 + 1) - yScale (0, 100) (0, 800) 0 ≠ 0 ∧
        yScale (0, 100) (800, 0) (niceDomain 0 100 10).1 = 800 ∧
        yScale (0, 100) (800, 0) (niceDomain 0 100 10).2 = 0) :=
  ⟨by norm_num, by norm_num,
    C8_reversed_range_slope 0 100 0 800 0 (by norm_num) (by norm_num)⟩

/-- Claim C9 (counterexample): the claim says the range interval the dot
coordinates observe equals the interval as originally constructed; in
the code `range.y.reverse()` at the y-axis line mutates `range.y` in
place, so the interval observed by the dot computation differs from the
constructed one. -/
theorem C9_counterexample : rangeY_at_dots ≠ rangeY_initial := by
  simp only [rangeY_at_dots, rangeY_after_axes, rangeY_initial,
    innerHeight, List.reverse]
  norm_num

/-- Claim C9 (amended): every later operation leaves the indices,
observations and domain unchanged, but `range.y` is reversed in place
when the y axis is built, so the dot coordinates observe
`[innerHeight, 0]` — the reversal of the constructed `[0, innerHeight]`
— rather than the original interval. -/
theorem C9_range_mutated_by_reverse :
    rangeY_at_dots = [innerHeight, 0] ∧
      rangeY_at_dots = rangeY_initial.reverse ∧
      rangeY_initial = [0, innerHeight] :=
  ⟨rfl, rfl, rfl⟩

/-- Claim C10: a fact whose milliseconds cell does not coerce to a
number (NaN) fails the strict less-than filter comparison and is
excluded from the observation sequence, and every fact that survives the
filter — the only facts that reach the observation map and hence domain
computation — has a milliseconds value that parses to a number below
120000. -/
theorem C10_nan_filtered (ps : List PitStop) (d : PitStop) (hd : d ∈ ps)
    (hnan : jsNumber d.milliseconds = none) :
    d ∉ filterFacts ps ∧
      ∀ d2 ∈ filterFacts ps,
        ∃ v, jsNumber d2.milliseconds = some v ∧ v < 120000 := by
  constructor
  · intro hmem
    have hp := (List.mem_filter.mp hmem).2
    rw [hnan] at hp
    simp [jsLtB] at hp
  · intro d2 hmem
    have hp := (List.mem_filter.mp hmem).2
    rcases hj : jsNumber d2.milliseconds with _ | v
    · rw [hj] at hp
      simp [jsLtB] at hp
    · rw [hj] at hp
      simp [jsLtB] at hp
      exact ⟨v, rfl, hp⟩

/-- Witness for C10 at a fact whose milliseconds cell is "n/a". -/
theorem C10_witness :
    exPitBadMs ∉ filterFacts [exPitBadMs] ∧
      ∀ d2 ∈ filterFacts [exPitBadMs],
        ∃ v, jsNumber d2.milliseconds = some v ∧ v < 120000 :=
  C10_nan_filtered [exPitBadMs] exPitBadMs (by simp) (by rfl)
